import Mathlib

/-!
Verification of the conversation-orchestration client in `src/App.tsx`
(`custzai`). Strings are modelled as `List Char`; the JavaScript string
operations used by the source (`includes`, `replace` of the first
occurrence, `split`, `trim`, `startsWith`, `slice`) are embedded as
executable functions on `List Char`, and the stateful handlers become
pure state-transition functions.
-/

set_option maxRecDepth 8192

/-! ## JavaScript string primitives over `List Char` -/

/-- Boolean prefix test (JS `startsWith`). -/
def leadsWith : List Char → List Char → Bool
  | [], _ => true
  | _ :: _, [] => false
  | a :: as, b :: bs => a == b && leadsWith as bs

/-- Split a list at the first occurrence of `sep`: returns the part strictly
before the occurrence and the part strictly after it, or `none` when `sep`
does not occur.  This is the shared core of JS `includes`, `replace` and
`split`. -/
def splitAtFirst (sep : List Char) : List Char → Option (List Char × List Char)
  | [] => if leadsWith sep [] then some ([], []) else none
  | c :: rest =>
      if leadsWith sep (c :: rest) then some ([], (c :: rest).drop sep.length)
      else (splitAtFirst sep rest).map (fun p => (c :: p.1, p.2))

/-- JS `String.prototype.includes`. -/
def jsIncludes (sep s : List Char) : Bool := (splitAtFirst sep s).isSome

/-- JS `String.prototype.replace(sep, '')`: removes the first occurrence of
`sep` (a plain string pattern replaces only the first match). -/
def replaceFirst (sep s : List Char) : List Char :=
  match splitAtFirst sep s with
  | some (a, b) => a ++ b
  | none => s

/-- Fuelled worker for `jsSplit`; `s.length + 1` fuel always suffices for a
non-empty separator because every removed occurrence shortens the rest. -/
def jsSplitF : Nat → List Char → List Char → List (List Char)
  | 0, _, s => [s]
  | fuel + 1, sep, s =>
      match splitAtFirst sep s with
      | some (a, b) => a :: jsSplitF fuel sep b
      | none => [s]

/-- JS `String.prototype.split(sep)` for a non-empty string separator:
the list of segments between consecutive occurrences of `sep`. -/
def jsSplit (sep s : List Char) : List (List Char) := jsSplitF (s.length + 1) sep s

/-- JS `String.prototype.trim`: strip whitespace from both ends. -/
def jsTrim (s : List Char) : List Char :=
  ((s.dropWhile Char.isWhitespace).reverse.dropWhile Char.isWhitespace).reverse

/-! ## Streaming response parsing (`handleSendMessage`, chunk loop,
`src/App.tsx` lines 561-631) -/

/-- The opening reasoning sentinel of the CoT instruction,
`"<THOUGHT_PROCESS>"`. -/
def OPEN_TAG : List Char :=
  ['<', 'T', 'H', 'O', 'U', 'G', 'H', 'T', '_', 'P', 'R', 'O', 'C', 'E', 'S', 'S', '>']

/-- The closing reasoning sentinel, `"</THOUGHT_PROCESS>"`. -/
def CLOSE_TAG : List Char :=
  ['<', '/', 'T', 'H', 'O', 'U', 'G', 'H', 'T', '_', 'P', 'R', 'O', 'C', 'E', 'S', 'S', '>']

/-- Appending JS `undefined` to a string coerces it to the text
`"undefined"`; faithful to `fullResponseText += rest` when `split` yielded
fewer than two parts. -/
def UNDEFINED_TEXT : List Char :=
  ['u', 'n', 'd', 'e', 'f', 'i', 'n', 'e', 'd']

/-- The mutable locals of the streaming loop: `fullResponseText`,
`fullThinkingText` and `isInsideThinkingBlock`. -/
structure StreamAcc where
  fullResponseText : List Char
  fullThinkingText : List Char
  isInsideThinkingBlock : Bool
deriving DecidableEq, Repr

/-- Initial accumulator values at the start of the streaming loop. -/
def initStreamAcc : StreamAcc :=
  { fullResponseText := [], fullThinkingText := [], isInsideThinkingBlock := false }

/-- One plain-text sub-part of a streamed chunk, as processed by the body of
the `else if (part.text)` branch of the chunk loop (`src/App.tsx` 575-603). -/
def processTextContent (isThinkingEnabled : Bool) (st : StreamAcc) (content : List Char) :
    StreamAcc :=
  if isThinkingEnabled then
    let hasOpen := jsIncludes OPEN_TAG content
    let inside1 := if hasOpen then true else st.isInsideThinkingBlock
    let processedContent := if hasOpen then replaceFirst OPEN_TAG content else content
    if jsIncludes CLOSE_TAG content then
      let parts := jsSplit CLOSE_TAG processedContent
      let thought := parts.headD []
      let rest := match parts.get? 1 with
        | some r => r
        | none => UNDEFINED_TEXT
      { fullResponseText := st.fullResponseText ++ rest,
        fullThinkingText := st.fullThinkingText ++ thought,
        isInsideThinkingBlock := false }
    else
      if inside1 then
        { st with fullThinkingText := st.fullThinkingText ++ processedContent,
                  isInsideThinkingBlock := inside1 }
      else
        { st with fullResponseText := st.fullResponseText ++ processedContent,
                  isInsideThinkingBlock := inside1 }
  else
    { st with fullResponseText := st.fullResponseText ++ content }

/-- A sub-part of a streamed chunk: either a provider-native `thought`
payload or plain `text`. -/
inductive StreamPart where
  | thought (s : List Char)
  | text (s : List Char)
deriving DecidableEq, Repr

/-- Processing of one sub-part of a chunk (`for (const part of parts)`). -/
def processPart (isThinkingEnabled : Bool) (st : StreamAcc) : StreamPart → StreamAcc
  | .thought s => { st with fullThinkingText := st.fullThinkingText ++ s }
  | .text s => processTextContent isThinkingEnabled st s

/-- Processing of one streamed chunk (its ordered list of sub-parts). -/
def processChunk (isThinkingEnabled : Bool) (st : StreamAcc) (parts : List StreamPart) :
    StreamAcc :=
  parts.foldl (processPart isThinkingEnabled) st

/-- The whole streaming loop (`for await (const chunk of result)`) over an
ordered sequence of chunks, starting from empty accumulators. -/
def runStream (isThinkingEnabled : Bool) (chunks : List (List StreamPart)) : StreamAcc :=
  chunks.foldl (processChunk isThinkingEnabled) initStreamAcc

/-! ## Occurrence lemmas for the sentinel tags

Both sentinel tags start with `'<'` and contain `'<'` nowhere else, so
occurrence positions inside `pre ++ tag ++ suf` are controlled by the
positions of `'<'`. -/

theorem leadsWith_self_append (l r : List Char) : leadsWith l (l ++ r) = true := by
  induction l with
  | nil => rfl
  | cons c cs ih => simp [leadsWith, ih]

theorem splitAtFirst_cons_of_ne {t : List Char} {c : Char} (s : List Char) (hc : c ≠ '<') :
    splitAtFirst ('<' :: t) (c :: s) =
      (splitAtFirst ('<' :: t) s).map (fun p => (c :: p.1, p.2)) := by
  have hb : (('<' : Char) == c) = false := by
    exact beq_eq_false_iff_ne.mpr (Ne.symm hc)
  simp [splitAtFirst, leadsWith, hb]

theorem splitAtFirst_self_append (t s : List Char) :
    splitAtFirst ('<' :: t) (('<' :: t) ++ s) = some ([], s) := by
  rw [List.cons_append]
  have h : leadsWith ('<' :: t) ('<' :: (t ++ s)) = true := by
    have h0 := leadsWith_self_append ('<' :: t) s
    rwa [List.cons_append] at h0
  have h2 : ('<' :: (t ++ s)).drop ('<' :: t).length = s := by
    rw [← List.cons_append]
    exact List.drop_left _ _
  simp only [splitAtFirst, h, if_pos, h2]

theorem splitAtFirst_none_of_no_lt (t : List Char) :
    ∀ s : List Char, '<' ∉ s → splitAtFirst ('<' :: t) s = none := by
  intro s
  induction s with
  | nil => intro _; rfl
  | cons c rest ih =>
      intro hmem
      have hc : c ≠ '<' := by
        intro h; exact hmem (h ▸ List.mem_cons_self c rest)
      have hrest : '<' ∉ rest := fun h => hmem (List.mem_cons_of_mem c h)
      rw [splitAtFirst_cons_of_ne rest hc, ih hrest]
      rfl

theorem splitAtFirst_mid (t : List Char) :
    ∀ pre suf : List Char, '<' ∉ pre →
      splitAtFirst ('<' :: t) (pre ++ ('<' :: t) ++ suf) = some (pre, suf) := by
  intro pre
  induction pre with
  | nil =>
      intro suf _
      simpa using splitAtFirst_self_append t suf
  | cons c pre' ih =>
      intro suf hmem
      have hc : c ≠ '<' := by
        intro h; exact hmem (h ▸ List.mem_cons_self c pre')
      have hpre' : '<' ∉ pre' := fun h => hmem (List.mem_cons_of_mem c h)
      have := ih suf hpre'
      rw [List.cons_append, List.cons_append, splitAtFirst_cons_of_ne _ hc]
      rw [List.append_assoc] at this
      rw [List.append_assoc, this]
      rfl

theorem splitAtFirst_cons_eq (sep : List Char) (c : Char) (rest : List Char) :
    splitAtFirst sep (c :: rest) =
      if leadsWith sep (c :: rest) then some ([], (c :: rest).drop sep.length)
      else (splitAtFirst sep rest).map (fun p => (c :: p.1, p.2)) := rfl

theorem splitAtFirst_close_skip_open (suf : List Char) (hsuf : '<' ∉ suf) :
    splitAtFirst CLOSE_TAG (OPEN_TAG ++ suf) = none := by
  show splitAtFirst CLOSE_TAG
      ('<' :: (['T', 'H', 'O', 'U', 'G', 'H', 'T', '_', 'P', 'R', 'O', 'C', 'E', 'S', 'S', '>']
        ++ suf)) = none
  have hlw : leadsWith CLOSE_TAG
      ('<' :: (['T', 'H', 'O', 'U', 'G', 'H', 'T', '_', 'P', 'R', 'O', 'C', 'E', 'S', 'S', '>']
        ++ suf)) = false := by
    simp [CLOSE_TAG, leadsWith]
  have hmem : '<' ∉
      (['T', 'H', 'O', 'U', 'G', 'H', 'T', '_', 'P', 'R', 'O', 'C', 'E', 'S', 'S', '>'] ++ suf) := by
    intro h
    rcases List.mem_append.mp h with h1 | h2
    · exact absurd h1 (by decide)
    · exact hsuf h2
  have hrec := splitAtFirst_none_of_no_lt
      (CLOSE_TAG.drop 1)
      (['T', 'H', 'O', 'U', 'G', 'H', 'T', '_', 'P', 'R', 'O', 'C', 'E', 'S', 'S', '>'] ++ suf)
      hmem
  rw [show ('<' :: CLOSE_TAG.drop 1) = CLOSE_TAG from rfl] at hrec
  rw [splitAtFirst_cons_eq, hlw, if_neg (by simp), hrec]
  rfl

theorem splitAtFirst_close_none (pre suf : List Char) (hpre : '<' ∉ pre) (hsuf : '<' ∉ suf) :
    splitAtFirst CLOSE_TAG (pre ++ OPEN_TAG ++ suf) = none := by
  induction pre with
  | nil => simpa using splitAtFirst_close_skip_open suf hsuf
  | cons c pre' ih =>
      have hc : c ≠ '<' := by
        intro h; exact hpre (h ▸ List.mem_cons_self c pre')
      have hpre' : '<' ∉ pre' := fun h => hpre (List.mem_cons_of_mem c h)
      have step := splitAtFirst_cons_of_ne (t := CLOSE_TAG.drop 1)
        (pre' ++ OPEN_TAG ++ suf) hc
      rw [show ('<' :: CLOSE_TAG.drop 1) = CLOSE_TAG from rfl] at step
      simp only [List.cons_append, List.append_assoc] at step ⊢
      rw [step]
      have ih' := ih hpre'
      rw [List.append_assoc] at ih'
      rw [ih']
      rfl

theorem splitAtFirst_open_mid (pre suf : List Char) (hpre : '<' ∉ pre) :
    splitAtFirst OPEN_TAG (pre ++ OPEN_TAG ++ suf) = some (pre, suf) := by
  have h := splitAtFirst_mid (OPEN_TAG.drop 1) pre suf hpre
  rwa [show ('<' :: OPEN_TAG.drop 1) = OPEN_TAG from rfl] at h

/-! ## Claim C1 — split-tolerant sentinel extraction -/

/-- C1: the claim states that for a well-formed open/close sentinel pair the
reasoning accumulator is exactly the text strictly between the tags and the
answer accumulator the remaining text, *for every split of the character
stream into fragments, including a split cutting a tag in two*.  The code
searches for the whole tag inside each fragment separately, so on the
fragment sequence `["<THOUGHT_", "PROCESS>hi</THOUGHT_PROCESS>ans"]`
(reasoning enabled) it produces `fullThinkingText = "PROCESS>hi"` and
`fullResponseText = "<THOUGHT_ans"` instead of the claimed `"hi"` / `"ans"`:
the opening tag cut across the fragment boundary is never detected.  This
theorem evaluates the embedded chunk loop at that failing input. -/
theorem c1_split_tag_divergence :
    runStream true
        [[StreamPart.text ("<THOUGHT_".data)],
         [StreamPart.text ("PROCESS>hi</THOUGHT_PROCESS>ans".data)]] =
      { fullResponseText := "<THOUGHT_ans".data,
        fullThinkingText := "PROCESS>hi".data,
        isInsideThinkingBlock := false } ∧
    "PROCESS>hi".data ≠ "hi".data ∧ "<THOUGHT_ans".data ≠ "ans".data := by
  refine ⟨by decide, by decide, by decide⟩

/-! ## Claim C7 — routing of text preceding the opening tag -/

/-- C7 (counterexample): the claim says a plain-text sub-part containing the
opening sentinel emits the text *preceding* the tag to the destination
selected by the current state — for the initial state `OUTSIDE_REASONING`,
the answer accumulator.  On the sub-part `"abc<THOUGHT_PROCESS>def"` the
claim therefore predicts `fullResponseText = "abc"`, but the code flips
`isInsideThinkingBlock` *before* routing the remainder, so everything,
`"abc"` included, lands in the reasoning accumulator. -/
theorem c7_preceding_text_counterexample :
    (processTextContent true initStreamAcc ("abc".data ++ OPEN_TAG ++ "def".data)).fullResponseText
        ≠ "abc".data ∧
    processTextContent true initStreamAcc ("abc".data ++ OPEN_TAG ++ "def".data) =
      { fullResponseText := [], fullThinkingText := "abcdef".data,
        isInsideThinkingBlock := true } := by
  refine ⟨by decide, by decide⟩

/-- C7 (amended): for every plain-text sub-part of the form
`pre ++ "<THOUGHT_PROCESS>" ++ suf` (with `pre` and `suf` free of tag
characters, so neither tag is cut or duplicated, and no closing tag in the
sub-part), the parser appends the text preceding the tag — together with
the text following it — to the *reasoning* accumulator regardless of the
current state, leaves the answer accumulator unchanged, and transitions to
`INSIDE_REASONING`. -/
theorem c7_open_tag_amended (st : StreamAcc) (pre suf : List Char)
    (hpre : '<' ∉ pre) (hsuf : '<' ∉ suf) :
    (processTextContent true st (pre ++ OPEN_TAG ++ suf)).fullThinkingText
        = st.fullThinkingText ++ (pre ++ suf) ∧
    (processTextContent true st (pre ++ OPEN_TAG ++ suf)).fullResponseText
        = st.fullResponseText ∧
    (processTextContent true st (pre ++ OPEN_TAG ++ suf)).isInsideThinkingBlock = true := by
  have hopen := splitAtFirst_open_mid pre suf hpre
  have hclose := splitAtFirst_close_none pre suf hpre hsuf
  have hrepl : replaceFirst OPEN_TAG (pre ++ OPEN_TAG ++ suf) = pre ++ suf := by
    rw [replaceFirst, hopen]
  simp only [processTextContent, jsIncludes, hopen, hclose, hrepl, Option.isSome_some,
    Option.isSome_none, if_true, if_false, Bool.false_eq_true, and_self, and_true]

/-- C7 (witness): the amended theorem applied at the concrete sub-part
`"abc<THOUGHT_PROCESS>def"` from the reasoning state with non-empty
accumulators. -/
theorem c7_open_tag_witness :
    (processTextContent true
        { fullResponseText := "A".data, fullThinkingText := "B".data,
          isInsideThinkingBlock := false }
        ("abc".data ++ OPEN_TAG ++ "def".data)).fullThinkingText
      = "B".data ++ ("abc".data ++ "def".data) ∧
    (processTextContent true
        { fullResponseText := "A".data, fullThinkingText := "B".data,
          isInsideThinkingBlock := false }
        ("abc".data ++ OPEN_TAG ++ "def".data)).fullResponseText = "A".data ∧
    (processTextContent true
        { fullResponseText := "A".data, fullThinkingText := "B".data,
          isInsideThinkingBlock := false }
        ("abc".data ++ OPEN_TAG ++ "def".data)).isInsideThinkingBlock = true :=
  c7_open_tag_amended
    { fullResponseText := "A".data, fullThinkingText := "B".data,
      isInsideThinkingBlock := false }
    ("abc".data) ("def".data) (by decide) (by decide)

/-! ## Claim C3 — suggestions split at stream termination
(`src/App.tsx` lines 633-651) -/

/-- The suggestions sentinel `"---SUGGESTIONS---"`. -/
def SUGGESTIONS_TAG : List Char := "---SUGGESTIONS---".data

/-- Stream-termination post-processing of the final answer accumulator: the
text before the sentinel, trimmed, and the non-blank lines of the (trimmed)
text after it.  `parts[1] ? parts[1].trim() : ''` treats an empty second
segment as falsy, hence the inner `isEmpty` test. -/
def finalizeAnswer (fullResponseText : List Char) : List Char × List (List Char) :=
  let parts := jsSplit SUGGESTIONS_TAG fullResponseText
  let mainText := jsTrim (parts.headD [])
  let suggestionText := match parts.get? 1 with
    | some p => if p.isEmpty then [] else jsTrim p
    | none => []
  let suggestions := (jsSplit ['\n'] suggestionText).filter (fun s => !(jsTrim s).isEmpty)
  (mainText, suggestions)

/-- Spec-side description of the suggestions list: the segment after the
sentinel, trimmed, split at newlines, with blank lines removed. -/
def suggestionLinesAfter (post : List Char) : List (List Char) :=
  (jsSplit ['\n'] (jsTrim post)).filter (fun s => !(jsTrim s).isEmpty)

theorem jsSplitF_succ_none (sep b : List Char) (h : splitAtFirst sep b = none) (n : Nat) :
    jsSplitF (n + 1) sep b = [b] := by
  simp [jsSplitF, h]

/-- A string with exactly one occurrence of a non-empty separator splits
into exactly the two surrounding segments. -/
theorem jsSplit_single_occurrence (sep s a b : List Char) (hsep : sep ≠ [])
    (h1 : splitAtFirst sep s = some (a, b)) (h2 : splitAtFirst sep b = none) :
    jsSplit sep s = [a, b] := by
  cases s with
  | nil =>
      exfalso
      cases sep with
      | nil => exact hsep rfl
      | cons c cs => simp [splitAtFirst, leadsWith] at h1
  | cons c rest =>
      show jsSplitF (rest.length + 1 + 1) sep (c :: rest) = [a, b]
      rw [jsSplitF, h1]
      show a :: jsSplitF (rest.length + 1) sep b = [a, b]
      rw [jsSplitF_succ_none sep b h2 rest.length]

/-- C3 (counterexample): the claim says the suggestions list is capped at
three entries; on the final answer `"A\n---SUGGESTIONS---\na\nb\nc\nd"` the
code produces all four lines — no cap is applied on the chat pathway. -/
theorem c3_cap_counterexample :
    (finalizeAnswer ("A\n---SUGGESTIONS---\na\nb\nc\nd".data)).2
        = ["a".data, "b".data, "c".data, "d".data] ∧
    ¬ (finalizeAnswer ("A\n---SUGGESTIONS---\na\nb\nc\nd".data)).2.length ≤ 3 := by
  refine ⟨by decide, by decide⟩

/-- C3 (amended): at stream termination, for a final answer accumulator
containing exactly one occurrence of `---SUGGESTIONS---`, the resulting
message text is the segment before the sentinel, trimmed, and the resulting
suggestions list is the segment after the sentinel split into non-blank
lines — *without* any cap (the three-entry cap the claim states only exists
on the image pathways). -/
theorem c3_suggestions_split (full pre post : List Char)
    (h1 : splitAtFirst SUGGESTIONS_TAG full = some (pre, post))
    (h2 : splitAtFirst SUGGESTIONS_TAG post = none) :
    finalizeAnswer full = (jsTrim pre, suggestionLinesAfter post) := by
  have hsplit := jsSplit_single_occurrence SUGGESTIONS_TAG full pre post (by decide) h1 h2
  unfold finalizeAnswer suggestionLinesAfter
  rw [hsplit]
  cases post with
  | nil => rfl
  | cons c cs => rfl

/-- C3 (witness): the amended theorem at the spec's own example, plus the
evaluated result. -/
theorem c3_suggestions_split_witness :
    finalizeAnswer ("Paris is the capital.\n---SUGGESTIONS---\nTell me more\nShow a map\n\n".data)
        = (jsTrim ("Paris is the capital.\n".data),
           suggestionLinesAfter ("\nTell me more\nShow a map\n\n".data)) ∧
    finalizeAnswer ("Paris is the capital.\n---SUGGESTIONS---\nTell me more\nShow a map\n\n".data)
        = ("Paris is the capital.".data, ["Tell me more".data, "Show a map".data]) :=
  ⟨c3_suggestions_split ("Paris is the capital.\n---SUGGESTIONS---\nTell me more\nShow a map\n\n".data)
      ("Paris is the capital.\n".data) ("\nTell me more\nShow a map\n\n".data)
      (by decide) (by decide),
   by decide⟩

/-! ## Data model (`src/types.ts`) -/

/-- `ModelType` from `src/types.ts`. -/
inductive ModelType where
  | gemini_2_5_flash
  | gemini_3_pro_preview
  | imagen_4_0_generate_001
  | gemini_2_5_flash_image
  | gemini_flash_lite_latest
  | gemini_1_5_flash
deriving DecidableEq, Repr

/-- The aspect values of `src/types.ts` (named `AspectRatio` there):
`1:1`, `16:9`, `9:16`, `4:3`, `3:4`. -/
inductive Aspect where
  | square | wide | tall | landscape | portrait
deriving DecidableEq, Repr

/-- `sender: 'user' | 'bot'`. -/
inductive Sender where
  | user | bot
deriving DecidableEq, Repr

/-- `Message` from `src/types.ts`; optional fields become `Option`
(`none` = the field is absent / `undefined`).  `groundingMetadata` is typed
`any` in the source and is kept opaque as an optional payload string. -/
structure Message where
  id : List Char
  text : List Char
  thinkingText : Option (List Char) := none
  sender : Sender
  isStreaming : Option Bool := none
  model : Option ModelType := none
  suggestions : Option (List (List Char)) := none
  imageUrl : Option (List Char) := none
  aspect : Option Aspect := none
  uploadedImageUrl : Option (List Char) := none
  groundingMetadata : Option (List Char) := none
  statusText : Option (List Char) := none
  isThinkingMode : Option Bool := none
deriving DecidableEq, Repr

/-- `ChatSession` from `src/types.ts`. -/
structure ChatSession where
  id : List Char
  title : List Char
  messages : List Message
  timestamp : Nat
deriving DecidableEq, Repr

/-- The `chatModels` array of `src/App.tsx` line 99. -/
def chatModels : List ModelType :=
  [ModelType.gemini_2_5_flash, ModelType.gemini_3_pro_preview,
   ModelType.gemini_flash_lite_latest, ModelType.gemini_1_5_flash]

/-- `chatModels.includes(model)` (`src/App.tsx` line 100). -/
def isChatModel (m : ModelType) : Bool := chatModels.contains m

/-- The `supportsThinking` membership test (`src/App.tsx` lines 241, 398). -/
def supportsThinking (m : ModelType) : Bool :=
  [ModelType.gemini_2_5_flash, ModelType.gemini_3_pro_preview,
   ModelType.gemini_flash_lite_latest].contains m

/-! ## Configuration builder (`initializeChat`, `src/App.tsx` 186-262) -/

/-- The single web-search tool `{ googleSearch: {} }`. -/
inductive Tool where
  | googleSearch
deriving DecidableEq, Repr

/-- `config.thinkingConfig`. -/
structure ThinkingConfig where
  thinkingBudget : Nat
deriving DecidableEq, Repr

/-- The request configuration assembled per turn. -/
structure ChatRequestConfig where
  systemInstruction : List Char
  tools : List Tool
  thinkingConfig : Option ThinkingConfig
deriving DecidableEq, Repr

/-- The base system instruction template (`src/App.tsx` 189-203), including
the template literal's source indentation. -/
def baseSystemInstruction : List Char :=
  ("You are CustzAI, a helpful and friendly AI assistant.\n    \n    INSTRUCTION FOR SUGGESTIONS:\n    At the very end of your response, you MUST provide 3 short, relevant follow-up actions or questions for the user.\n    These suggestions should be like \"offers\" to help them do more with the topic.\n    Format:\n    ---SUGGESTIONS---\n    Suggestion 1\n    Suggestion 2\n    Suggestion 3\n\n    IMPORTANT: The suggestions MUST be in the SAME LANGUAGE as the user\x27s input/your response.\n    \n    ARTIFACT INSTRUCTION:\n    If the user asks to generate code for a UI, website, or component (HTML/CSS/JS), ALWAYS output a complete, self-contained single HTML file structure within ```html code blocks. Include internal CSS in <style> tags and JS in <script> tags.").data

/-- The chain-of-thought override block appended when `isThinkingEnabled`
(`src/App.tsx` 207-228). -/
def cotSystemInstruction : List Char :=
  ("\n\n[SYSTEM OVERRIDE: CHAIN OF THOUGHT MODE ENABLED]\n        \n        Mekanisme Kerja:\n        Anda harus menjelaskan langkah-langkah penalaran internal Anda SEBELUM memberikan jawaban akhir.\n        \n        Instruksi Wajib:\n        1. JANGAN langsung menjawab pertanyaan inti.\n        2. Mulailah dengan berpikir langkah demi langkah (Step-by-Step).\n        3. Pecah masalah pengguna menjadi sub-komponen logis.\n        4. Analisis setiap variabel dan kemungkinan kesalahan.\n        5. Tuliskan proses berpikir ini secara eksplisit sebagai bagian dari \"thought process\".\n        6. Anda WAJIB membungkus proses berpikir Anda di dalam tag XML <THOUGHT_PROCESS> ... </THOUGHT_PROCESS>.\n        7. Jawaban akhir diberikan DI LUAR tag tersebut.\n        \n        Contoh Alur:\n        <THOUGHT_PROCESS>\n        Pertama, saya identifikasi nilai X. \n        Kedua, saya terapkan rumus Y...\n        </THOUGHT_PROCESS>\n        Jawabannya adalah Z.\n        \n        Tujuan: Akurasi Tinggi & Transparansi.").data

/-- The configuration computed by the source's `initializeChat`
(`src/App.tsx` 186-262): `none` models the early return for non-chat
models (no chat session, hence no request configuration, is created). -/
def buildChatConfig (model : ModelType)
    (isThinkingEnabled isTurboEnabled isSearchEnabled : Bool) :
    Option ChatRequestConfig :=
  if !(isChatModel model) then none
  else
    let systemInstruction :=
      baseSystemInstruction ++ (if isThinkingEnabled then cotSystemInstruction else [])
    let tools := if isSearchEnabled && isChatModel model then [Tool.googleSearch] else []
    let thinkingConfig : Option ThinkingConfig :=
      if supportsThinking model then
        if isTurboEnabled then some { thinkingBudget := 0 }
        else if isThinkingEnabled then
          some { thinkingBudget :=
            if model == ModelType.gemini_3_pro_preview then 16000 else 8192 }
        else none
      else none
    some { systemInstruction := systemInstruction, tools := tools,
           thinkingConfig := thinkingConfig }

/-- The reasoning-token budget carried by a configuration (`none` = unset,
provider default; also `none` when no configuration is built at all). -/
def budgetOf (c : Option ChatRequestConfig) : Option Nat :=
  c.bind (fun cfg => cfg.thinkingConfig.map (fun tc => tc.thinkingBudget))

/-- The reasoning-token budget as the amended claim states it: `0` under
turbo *on a model supporting reasoning*; the model-dependent high value
under reasoning with turbo off on a supporting model; unset otherwise —
including every toggle state on models without reasoning support. -/
def specBudget (m : ModelType) (isThinkingEnabled isTurboEnabled : Bool) : Option Nat :=
  if supportsThinking m then
    if isTurboEnabled then some 0
    else if isThinkingEnabled then
      some (if m == ModelType.gemini_3_pro_preview then 16000 else 8192)
    else none
  else none

/-! ## Claim C6 — reasoning-token budget -/

/-- C6 (counterexample): the claim demands a budget of exactly `0` whenever
`turboEnabled` is true, for *every* model; but on `gemini-1.5-flash`
(a chat model outside the `supportsThinking` list) the code attaches no
`thinkingConfig` at all, so the budget is unset rather than `0`. -/
theorem c6_turbo_unsupported_counterexample :
    budgetOf (buildChatConfig ModelType.gemini_1_5_flash false true false) ≠ some 0 ∧
    budgetOf (buildChatConfig ModelType.gemini_1_5_flash false true false) = none := by
  refine ⟨by decide, by decide⟩

/-- C6 (amended): for every model and toggle state the reasoning-token
budget of the built configuration is: exactly `0` when `turboEnabled` holds
*on a model supporting reasoning*; the model-dependent high value (16000
for the pro model, 8192 otherwise) when `reasoningEnabled` holds, turbo is
off and the model supports reasoning; and unset otherwise — in particular
for every toggle state on models without reasoning support. -/
theorem c6_budget : ∀ (m : ModelType) (think turbo search : Bool),
    budgetOf (buildChatConfig m think turbo search) = specBudget m think turbo := by
  intro m think turbo search
  cases m <;> cases think <;> cases turbo <;> cases search <;> rfl

/-! ## Claim C8 — degradation when reasoning is unsupported -/

/-- C8 (counterexample): the claim says that with reasoning requested on a
model without reasoning support *both* the reasoning instruction block and
the budget are omitted; but the chain-of-thought instruction injection is
gated only on `isThinkingEnabled` (`src/App.tsx` 206), not on model
support, so on `gemini-1.5-flash` the system instruction is *not* the bare
base instruction. -/
theorem c8_instruction_block_counterexample :
    (buildChatConfig ModelType.gemini_1_5_flash true false false).map
        (fun c => c.systemInstruction) ≠ some baseSystemInstruction := by
  decide

/-- C8 (amended): for every chat model without reasoning support (and any
turbo/search toggles), requesting reasoning still yields a valid
configuration without error, whose reasoning-token budget is omitted — but
the reasoning instruction block is nevertheless appended to the system
instruction (the injection is gated only on the toggle, not on model
support). -/
theorem c8_degrade (m : ModelType) (turbo search : Bool)
    (hchat : isChatModel m = true) (hsup : supportsThinking m = false) :
    (buildChatConfig m true turbo search).isSome = true ∧
    budgetOf (buildChatConfig m true turbo search) = none ∧
    (buildChatConfig m true turbo search).map (fun c => c.systemInstruction)
        = some (baseSystemInstruction ++ cotSystemInstruction) := by
  cases m
  case gemini_1_5_flash => exact ⟨rfl, rfl, rfl⟩
  case gemini_2_5_flash => exact absurd hsup (by decide)
  case gemini_3_pro_preview => exact absurd hsup (by decide)
  case gemini_flash_lite_latest => exact absurd hsup (by decide)
  case imagen_4_0_generate_001 => exact absurd hchat (by decide)
  case gemini_2_5_flash_image => exact absurd hchat (by decide)

/-- C8 (witness): the amended theorem at `gemini-1.5-flash` with turbo and
search off. -/
theorem c8_degrade_witness :
    (buildChatConfig ModelType.gemini_1_5_flash true false false).isSome = true ∧
    budgetOf (buildChatConfig ModelType.gemini_1_5_flash true false false) = none ∧
    (buildChatConfig ModelType.gemini_1_5_flash true false false).map
        (fun c => c.systemInstruction)
      = some (baseSystemInstruction ++ cotSystemInstruction) :=
  c8_degrade ModelType.gemini_1_5_flash false false (by decide) (by decide)

/-! ## Application state and the toggle / model-change handlers -/

/-- A staged attachment (`stagedFile`): an object URL plus the file
payload (name, mime type, bytes kept abstract as text). -/
structure StagedFile where
  url : List Char
  fileName : List Char
  mimeType : List Char
  fileBytes : List Char
deriving DecidableEq, Repr

/-- The `useState` cells of the `App` component that the orchestration
logic reads and writes (`src/App.tsx` 76-93). -/
structure AppState where
  messages : List Message
  isLoading : Bool
  model : ModelType
  aspect : Aspect
  isSearchEnabled : Bool
  isThinkingEnabled : Bool
  isTurboEnabled : Bool
  stagedFile : Option StagedFile
  lastGeneratedImage : Option (List Char)
  chatHistory : List ChatSession
  activeChatId : Option (List Char)
deriving DecidableEq, Repr

/-- The initial component state (`useState` initial values). -/
def initAppState : AppState :=
  { messages := [], isLoading := false, model := ModelType.gemini_2_5_flash,
    aspect := Aspect.square, isSearchEnabled := false, isThinkingEnabled := false,
    isTurboEnabled := false, stagedFile := none, lastGeneratedImage := none,
    chatHistory := [], activeChatId := none }

/-- `handleModelChange` (`src/App.tsx` 306-331): switching to a different
model resets the timeline and per-conversation state and clears toggles the
new model does not support; selecting the current model is a no-op. -/
def handleModelChange (st : AppState) (newModel : ModelType) : AppState :=
  if st.model ≠ newModel then
    let st1 := { st with model := newModel, messages := [], isLoading := false,
                         stagedFile := none, lastGeneratedImage := none,
                         activeChatId := none }
    let newIsChat := chatModels.contains newModel
    let st2 :=
      if !newIsChat then
        { st1 with isSearchEnabled := false, isThinkingEnabled := false,
                   isTurboEnabled := false }
      else st1
    if newModel = ModelType.gemini_1_5_flash then
      { st2 with isThinkingEnabled := false, isTurboEnabled := false }
    else st2
  else st

/-- The user-toggle operations of the input bar plus model selection
(`src/App.tsx` 733-745 and 306-331). -/
inductive ToggleOp where
  | toggleSearch
  | toggleThinking
  | toggleTurbo
  | changeModel (m : ModelType)
deriving DecidableEq, Repr

/-- One toggle operation.  The toggle callbacks read the *pre-toggle* value
from the closure: `setIsThinkingEnabled(!isThinkingEnabled)` followed by
`if (!isThinkingEnabled) setIsTurboEnabled(false)` (and symmetrically for
turbo). -/
def applyToggleOp (st : AppState) : ToggleOp → AppState
  | ToggleOp.toggleSearch => { st with isSearchEnabled := !st.isSearchEnabled }
  | ToggleOp.toggleThinking =>
      let st1 := { st with isThinkingEnabled := !st.isThinkingEnabled }
      if !st.isThinkingEnabled then { st1 with isTurboEnabled := false } else st1
  | ToggleOp.toggleTurbo =>
      let st1 := { st with isTurboEnabled := !st.isTurboEnabled }
      if !st.isTurboEnabled then { st1 with isThinkingEnabled := false } else st1
  | ToggleOp.changeModel m => handleModelChange st m

/-- Mutual exclusion of the reasoning and turbo toggles. -/
def togglesExclusive (st : AppState) : Prop :=
  st.isThinkingEnabled = true → st.isTurboEnabled = false

theorem togglesExclusive_handleModelChange (st : AppState) (m : ModelType)
    (h : togglesExclusive st) : togglesExclusive (handleModelChange st m) := by
  by_cases h1 : st.model = m
  · have : handleModelChange st m = st := by simp [handleModelChange, h1]
    rw [this]; exact h
  · by_cases h2 : m = ModelType.gemini_1_5_flash
    · subst h2
      simp [togglesExclusive, handleModelChange, h1]
    · by_cases h3 : m ∈ chatModels
      · simpa [togglesExclusive, handleModelChange, h1, h2, h3] using h
      · simp [togglesExclusive, handleModelChange, h1, h2, h3]

theorem togglesExclusive_applyToggleOp (st : AppState) (op : ToggleOp)
    (h : togglesExclusive st) : togglesExclusive (applyToggleOp st op) := by
  cases op with
  | toggleSearch => exact h
  | toggleThinking =>
      rcases hb : st.isThinkingEnabled with _ | _ <;>
        simp [togglesExclusive, applyToggleOp, hb]
  | toggleTurbo =>
      rcases hb : st.isTurboEnabled with _ | _ <;>
        simp [togglesExclusive, applyToggleOp, hb]
  | changeModel m => exact togglesExclusive_handleModelChange st m h

/-! ## Claim C2 — reasoning/turbo mutual exclusion -/

/-- C2: starting from the initial component state, after *every* sequence
of toggle operations (toggle reasoning, toggle turbo, toggle search, change
model) the reasoning and turbo toggles are never both true. -/
theorem c2_toggles_never_both (ops : List ToggleOp) :
    ((ops.foldl applyToggleOp initAppState).isThinkingEnabled &&
     (ops.foldl applyToggleOp initAppState).isTurboEnabled) = false := by
  have main : ∀ (l : List ToggleOp) (st : AppState), togglesExclusive st →
      togglesExclusive (l.foldl applyToggleOp st) := by
    intro l
    induction l with
    | nil => intro st h; exact h
    | cons op rest ih =>
        intro st h
        exact ih (applyToggleOp st op) (togglesExclusive_applyToggleOp st op h)
  have h := main ops initAppState (by intro h; simp_all [initAppState])
  rcases hthink : (ops.foldl applyToggleOp initAppState).isThinkingEnabled with _ | _
  · simp
  · simp [h hthink]

/-! ## Claim C10 — model change resets conversation state -/

/-- C10: switching to a different model resets the conversation (empty
timeline, loading flag cleared, staged file / last generated image /
active session pointer cleared) and clears the toggles the new model does
not support (all three for non-chat models; reasoning and turbo for
`gemini-1.5-flash`), while search survives on chat models and everything
survives if the selected model is already active. -/
theorem c10_model_change (st : AppState) (m : ModelType) :
    (st.model = m → handleModelChange st m = st) ∧
    (st.model ≠ m →
      (handleModelChange st m).model = m ∧
      (handleModelChange st m).messages = [] ∧
      (handleModelChange st m).isLoading = false ∧
      (handleModelChange st m).stagedFile = none ∧
      (handleModelChange st m).lastGeneratedImage = none ∧
      (handleModelChange st m).activeChatId = none ∧
      (handleModelChange st m).isSearchEnabled
          = (if isChatModel m then st.isSearchEnabled else false) ∧
      (handleModelChange st m).isThinkingEnabled
          = (if isChatModel m && !(m == ModelType.gemini_1_5_flash)
             then st.isThinkingEnabled else false) ∧
      (handleModelChange st m).isTurboEnabled
          = (if isChatModel m && !(m == ModelType.gemini_1_5_flash)
             then st.isTurboEnabled else false) ∧
      (handleModelChange st m).chatHistory = st.chatHistory ∧
      (handleModelChange st m).aspect = st.aspect) := by
  constructor
  · intro h1
    simp [handleModelChange, h1]
  · intro h1
    cases m <;> simp [handleModelChange, isChatModel, chatModels, h1]

/-- C10 (witness): switching from the initial state (chat model
`gemini-2.5-flash`, search and reasoning on) to the non-chat image model
resets the timeline and clears all three toggles. -/
theorem c10_model_change_witness :
    (handleModelChange
        { initAppState with isSearchEnabled := true, isThinkingEnabled := true }
        ModelType.imagen_4_0_generate_001).model = ModelType.imagen_4_0_generate_001 ∧
    (handleModelChange
        { initAppState with isSearchEnabled := true, isThinkingEnabled := true }
        ModelType.imagen_4_0_generate_001).messages = [] ∧
    (handleModelChange
        { initAppState with isSearchEnabled := true, isThinkingEnabled := true }
        ModelType.imagen_4_0_generate_001).isLoading = false ∧
    (handleModelChange
        { initAppState with isSearchEnabled := true, isThinkingEnabled := true }
        ModelType.imagen_4_0_generate_001).stagedFile = none ∧
    (handleModelChange
        { initAppState with isSearchEnabled := true, isThinkingEnabled := true }
        ModelType.imagen_4_0_generate_001).lastGeneratedImage = none ∧
    (handleModelChange
        { initAppState with isSearchEnabled := true, isThinkingEnabled := true }
        ModelType.imagen_4_0_generate_001).activeChatId = none ∧
    (handleModelChange
        { initAppState with isSearchEnabled := true, isThinkingEnabled := true }
        ModelType.imagen_4_0_generate_001).isSearchEnabled = false ∧
    (handleModelChange
        { initAppState with isSearchEnabled := true, isThinkingEnabled := true }
        ModelType.imagen_4_0_generate_001).isThinkingEnabled = false ∧
    (handleModelChange
        { initAppState with isSearchEnabled := true, isThinkingEnabled := true }
        ModelType.imagen_4_0_generate_001).isTurboEnabled = false ∧
    (handleModelChange
        { initAppState with isSearchEnabled := true, isThinkingEnabled := true }
        ModelType.imagen_4_0_generate_001).chatHistory = [] ∧
    (handleModelChange
        { initAppState with isSearchEnabled := true, isThinkingEnabled := true }
        ModelType.imagen_4_0_generate_001).aspect = Aspect.square :=
  (c10_model_change
      { initAppState with isSearchEnabled := true, isThinkingEnabled := true }
      ModelType.imagen_4_0_generate_001).2 (by decide)

/-! ## Claim C5 — the busy guard of `handleSendMessage`
(`src/App.tsx` 379-420) -/

/-- The synchronous prelude of `handleSendMessage`: the busy/empty guard,
construction and appending of the user message and the streaming assistant
placeholder, the loading flag, and the clearing of the staged file.
`nowId` and `botId` stand for the two `Date.now()`-derived identifiers and
`fileToDataURL` for the opaque media codec; the asynchronous pathway work
that follows the prelude is modelled separately. -/
def handleSendPrelude (fileToDataURL : StagedFile → List Char)
    (nowId botId : List Char) (st : AppState) (text : List Char) : AppState :=
  if st.isLoading || ((jsTrim text).isEmpty && st.stagedFile.isNone) then st
  else
    let userMessage : Message :=
      { id := nowId, text := text, sender := Sender.user,
        uploadedImageUrl := st.stagedFile.map fileToDataURL }
    let shouldUseThinkingMode := st.isThinkingEnabled && supportsThinking st.model
    let initialBotMessage : Message :=
      { id := botId, text := [], sender := Sender.bot, isStreaming := some true,
        model := some st.model, statusText := some ("Initializing...".data),
        thinkingText := some [], isThinkingMode := some shouldUseThinkingMode,
        aspect :=
          if st.model = ModelType.imagen_4_0_generate_001 then some st.aspect else none }
    { st with isLoading := true,
              messages := st.messages ++ [userMessage, initialBotMessage],
              stagedFile := none }

/-- C5: while a turn is in flight (`isLoading = true`) a second send
request is dropped by the guard: the returned state — message timeline
included — is the input state, unchanged; nothing is queued. -/
theorem c5_busy_guard (fileToDataURL : StagedFile → List Char)
    (nowId botId : List Char) (st : AppState) (text : List Char)
    (h : st.isLoading = true) :
    handleSendPrelude fileToDataURL nowId botId st text = st := by
  simp [handleSendPrelude, h]

/-- C5 (witness): a send attempted while the initial state is marked
loading returns the state unchanged. -/
theorem c5_busy_guard_witness :
    handleSendPrelude (fun _ => []) [] [] { initAppState with isLoading := true }
        ("hi".data)
      = { initAppState with isLoading := true } :=
  c5_busy_guard (fun _ => []) [] [] { initAppState with isLoading := true }
    ("hi".data) rfl

/-! ## Claim C4 — the per-turn failure handler
(`src/App.tsx` 653-667, `catch` block) -/

/-- The generic localized apology text installed by the `catch` block. -/
def generationErrorText : List Char :=
  ("Maaf, terjadi kesalahan saat memproses permintaan Anda. Silakan coba lagi.").data

/-- The `setMessages` update performed by the `catch` block of
`handleSendMessage`: the in-flight assistant message (matched by id) gets
`isStreaming: false` and its `text` replaced by the apology; the object
spread keeps every other field. -/
def applyCatchUpdate (botMessageId : List Char) (msgs : List Message) : List Message :=
  msgs.map (fun msg =>
    if msg.id = botMessageId then
      { msg with isStreaming := some false, text := generationErrorText }
    else msg)

/-- C4 (counterexample): the claim says no partial content accumulated
before the failure is discarded — yet the handler *replaces* the message's
partial answer text with the apology, so the accumulated `"partial answer"`
text is no longer present. -/
theorem c4_partial_text_counterexample :
    (applyCatchUpdate ("2".data)
        [{ id := "2".data, text := "partial answer".data,
           thinkingText := some ("step 1".data), sender := Sender.bot,
           isStreaming := some true }]).map (fun m => m.text)
      ≠ [("partial answer".data)] ∧
    (applyCatchUpdate ("2".data)
        [{ id := "2".data, text := "partial answer".data,
           thinkingText := some ("step 1".data), sender := Sender.bot,
           isStreaming := some true }]).map (fun m => m.text)
      = [generationErrorText] := by
  refine ⟨by decide, by decide⟩

/-- C4 (amended): on pathway failure the in-flight assistant message (and
only it) becomes terminal and non-streaming and carries the apology as its
`text` — *replacing* any partial answer text — while the accumulated
reasoning trace (`thinkingText`) and every other message is preserved
unchanged. -/
theorem c4_catch_update (bid : List Char) (msgs : List Message) (i : Nat) :
    ((applyCatchUpdate bid msgs).get? i).map (fun m => m.thinkingText)
        = (msgs.get? i).map (fun m => m.thinkingText) ∧
    ((applyCatchUpdate bid msgs).get? i).map (fun m => m.isStreaming)
        = (msgs.get? i).map
            (fun m => if m.id = bid then some false else m.isStreaming) ∧
    ((applyCatchUpdate bid msgs).get? i).map (fun m => m.text)
        = (msgs.get? i).map
            (fun m => if m.id = bid then generationErrorText else m.text) ∧
    ((applyCatchUpdate bid msgs).get? i).map (fun m => m.id)
        = (msgs.get? i).map (fun m => m.id) := by
  unfold applyCatchUpdate
  rw [List.get?_map]
  cases hm : msgs.get? i with
  | none => simp
  | some m =>
      by_cases hid : m.id = bid <;> simp [hid]

/-! ## Claim C9 — quota-aware persistence
(`src/App.tsx` 141-184, debounced save effect) -/

/-- The bounded store's failure (a thrown `QuotaExceededError`). -/
inductive PersistErr where
  | quotaExceeded
deriving DecidableEq, Repr

/-- `imageUrl?.startsWith('data:')`. -/
def startsWithData (s : List Char) : Bool := leadsWith ("data:".data) s

/-- Sanitization of one message for the primary save (lines 149-161): the
`imageUrl`/`uploadedImageUrl` fields are deleted only when they hold
inline `data:` payloads. -/
def sanitizeMessage (m : Message) : Message :=
  let m1 := match m.imageUrl with
    | some u => if startsWithData u then { m with imageUrl := none } else m
    | none => m
  match m1.uploadedImageUrl with
    | some u => if startsWithData u then { m1 with uploadedImageUrl := none } else m1
    | none => m1

/-- Per-session sanitization for the primary save. -/
def sanitizeSession (s : ChatSession) : ChatSession :=
  { s with messages := s.messages.map sanitizeMessage }

/-- The emergency strip (lines 171-174): both image fields removed
unconditionally. -/
def stripMessage (m : Message) : Message :=
  { m with imageUrl := none, uploadedImageUrl := none }

/-- `chatHistory.slice(-5)` with every message stripped (lines 169-175):
the 5 most recent sessions, binary payload fields removed. -/
def emergencyHistory (history : List ChatSession) : List ChatSession :=
  (history.drop (history.length - 5)).map
    (fun s => { s with messages := s.messages.map stripMessage })

/-- The observable outcome of one fired persistence cycle. -/
structure PersistResult where
  outcome : Except PersistErr Unit
  writes : List (List ChatSession)
  stored : Option (List ChatSession)
deriving Repr

/-- One fired persistence cycle (the debounced `setTimeout` body, lines
142-181): try the sanitized full history; on a quota error, catch it and
retry with the last five sessions stripped; a second error is caught and
only logged.  `outcome` is what escapes to the effect's caller, `writes`
the ordered store writes attempted, `stored` the write that succeeded. -/
def persistCycle (setItem : List ChatSession → Except PersistErr Unit)
    (chatHistory : List ChatSession) : PersistResult :=
  let safeHistory := chatHistory.map sanitizeSession
  match setItem safeHistory with
  | Except.ok _ =>
      { outcome := Except.ok (), writes := [safeHistory], stored := some safeHistory }
  | Except.error _ =>
      let emergency := emergencyHistory chatHistory
      match setItem emergency with
      | Except.ok _ =>
          { outcome := Except.ok (), writes := [safeHistory, emergency],
            stored := some emergency }
      | Except.error _ =>
          { outcome := Except.ok (), writes := [safeHistory, emergency], stored := none }

/-- The whole effect: it reads `chatHistory` from the component state and
talks to the bounded store; it performs no state update, so the in-memory
state is returned as-is alongside the cycle's result. -/
def runPersistEffect (setItem : List ChatSession → Except PersistErr Unit)
    (st : AppState) : AppState × PersistResult :=
  (st, persistCycle setItem st.chatHistory)

/-- C9: when the bounded store rejects the sanitized full-history write,
the cycle retries with exactly the 5 most recent sessions, all image
payload fields stripped from every message; if that write also fails,
nothing is stored for the cycle; in every case no error escapes to the
caller and the in-memory state (session list and timeline) is unchanged. -/
theorem c9_persistence_fallback (setItem : List ChatSession → Except PersistErr Unit)
    (st : AppState) (e : PersistErr)
    (h1 : setItem (st.chatHistory.map sanitizeSession) = Except.error e) :
    (runPersistEffect setItem st).1 = st ∧
    (runPersistEffect setItem st).2.outcome = Except.ok () ∧
    (runPersistEffect setItem st).2.writes
        = [st.chatHistory.map sanitizeSession,
           (st.chatHistory.drop (st.chatHistory.length - 5)).map
             (fun s => { s with messages := s.messages.map stripMessage })] ∧
    (∀ e2 : PersistErr, setItem (emergencyHistory st.chatHistory) = Except.error e2 →
        (runPersistEffect setItem st).2.stored = none) := by
  cases h2 : setItem (emergencyHistory st.chatHistory) with
  | ok u =>
      cases u
      refine ⟨rfl, ?_, ?_, ?_⟩
      · simp only [runPersistEffect, persistCycle, h1, h2]
      · simp only [runPersistEffect, persistCycle, h1, h2]
        rfl
      · intro e2 he
        simp at he
  | error e2 =>
      refine ⟨rfl, ?_, ?_, ?_⟩
      · simp only [runPersistEffect, persistCycle, h1, h2]
      · simp only [runPersistEffect, persistCycle, h1, h2]
        rfl
      · intro e3 _
        simp only [runPersistEffect, persistCycle, h1, h2]

/-- A one-session history used by the persistence witness. -/
def sampleSession : ChatSession :=
  { id := "1".data, title := "t".data, messages := [], timestamp := 7 }

/-- C9 (witness): a store that always reports a quota error receives the
sanitized full history and then the stripped last-5 retry, stores nothing,
propagates no error, and leaves the in-memory state unchanged. -/
theorem c9_persistence_fallback_witness :
    (runPersistEffect (fun _ => Except.error PersistErr.quotaExceeded)
        { initAppState with chatHistory := [sampleSession] }).1
      = { initAppState with chatHistory := [sampleSession] } ∧
    (runPersistEffect (fun _ => Except.error PersistErr.quotaExceeded)
        { initAppState with chatHistory := [sampleSession] }).2.outcome
      = Except.ok () ∧
    (runPersistEffect (fun _ => Except.error PersistErr.quotaExceeded)
        { initAppState with chatHistory := [sampleSession] }).2.writes
      = [[sampleSession].map sanitizeSession,
         (([sampleSession] : List ChatSession).drop
             (([sampleSession] : List ChatSession).length - 5)).map
           (fun s => { s with messages := s.messages.map stripMessage })] ∧
    (runPersistEffect (fun _ => Except.error PersistErr.quotaExceeded)
        { initAppState with chatHistory := [sampleSession] }).2.stored = none := by
  have h := c9_persistence_fallback
    (fun _ => Except.error PersistErr.quotaExceeded)
    { initAppState with chatHistory := [sampleSession] }
    PersistErr.quotaExceeded rfl
  exact ⟨h.1, h.2.1, h.2.2.1, h.2.2.2 PersistErr.quotaExceeded rfl⟩
